import Mathlib

/-!
Verification of `src/khoj/processor/tools/run_code.py`: the code-running
pipeline (code synthesis, input-artifact resolution, sandboxed execution,
and the orchestration in `run_code`).

The embedding models the Python module shallowly:
- JSON values (the output of `json.loads` and the bodies exchanged with the
  sandbox HTTP endpoint) are the inductive type `JValue`; Python dicts
  produced by JSON parsing are association lists with distinct keys.
- The language-model call and the raw-text cleanup (`clean_json` followed by
  `json.loads`) are external to this module; their combined outcome is an
  input of type `Option JValue` (`none` models a parse failure raised by
  `json.loads`, `some v` the parsed reply).
- The HTTP exchange with the sandbox is modelled by its observable outcome:
  either a transport-level exception carrying a message, or a response with a
  numeric status and a parsed JSON object body.
- Python exceptions are the type `PyExc`; a function that can raise returns
  `Except PyExc _`.
-/

namespace RunCode

/-- JSON values, the shape of `json.loads` output and of JSON bodies.
An object is an association list of fields; lists parsed from real JSON
have pairwise-distinct keys, which the operations below respect. -/
inductive JValue : Type where
  | str (s : String)
  | num (n : Int)
  | bool (b : Bool)
  | null
  | arr (elems : List JValue)
  | obj (fields : List (String × JValue))

/-- Python exceptions that the embedded fragment can raise. -/
inductive PyExc : Type where
  | valueError
  | attributeError
  | jsonDecodeError
  | typeError
deriving DecidableEq

/-- The text `str(e)` interpolated into the wrapping ValueError messages of
`run_code` (lines 58 and 84). A bare `raise ValueError` renders as the empty
string; the other exceptions render as a nonempty description whose exact
wording the claims do not depend on. -/
def PyExc.msg : PyExc → String
  | .valueError => ""
  | .attributeError => "AttributeError"
  | .jsonDecodeError => "JSONDecodeError"
  | .typeError => "TypeError"

/-- `d.get(k, default)` on a Python dict represented as an association list
with distinct keys. -/
def dictGet (fields : List (String × JValue)) (k : String) (default : JValue) : JValue :=
  (fields.lookup k).getD default

/-- `d[k] = v` on a Python dict: overwrite the entry in place when the key is
present, append it otherwise. -/
def dictSet : List (String × JValue) → String → JValue → List (String × JValue)
  | [], k, v => [(k, v)]
  | (k', v') :: rest, k, v =>
    if k' == k then (k, v) :: rest else (k', v') :: dictSet rest k v

/-- `d.pop(k)` on a Python dict: the value at `k` together with the dict
without that entry, or `none` when the key is absent (a KeyError). -/
def dictPop (fields : List (String × JValue)) (k : String) :
    Option (JValue × List (String × JValue)) :=
  match fields.lookup k with
  | none => none
  | some v => some (v, fields.filter (fun p => p.1 != k))

/-- Python `str.strip()`: drop leading and trailing whitespace characters. -/
def stripString (s : String) : String :=
  String.mk (((s.data.dropWhile Char.isWhitespace).reverse.dropWhile Char.isWhitespace).reverse)

/-- `value.strip()` on an arbitrary JSON value (run_code.py line 127).
Among the values `json.loads` can produce, only strings have a `strip`
method; on every other value the attribute access raises AttributeError. -/
def pyStrip : JValue → Except PyExc String
  | .str s => .ok (stripString s)
  | _ => .error .attributeError

/-- `isinstance(code, str)` evaluated at run_code.py line 131. By that line
`code` is the result of a successful `.strip()` call, hence always a Python
str, so the test is constantly true. -/
def isinstance_str (_code : String) : Bool :=
  true

/-- Modelled from the spec: `is_none_or_empty` (khoj/utils/helpers.py, not in
scope) reports whether a value is missing or empty; on the already-stripped
string it receives here, that is emptiness (spec 4.1: synthesis fails when
`code` is empty or whitespace-only after trimming). -/
def is_none_or_empty (s : String) : Bool :=
  s == ""

/-- Modelled from the spec: `clean_code_python`
(khoj/processor/conversation/utils.py, not in scope) normalizes the code text
by removing markdown code-fencing wrappers and surrounding whitespace
(spec 4.3: "Normalizes the code text (removes formatting/fencing wrappers)
before transmission"). -/
def clean_code_python (code : String) : String :=
  let s := (stripString code).data
  let s := if s.take 9 = ("```python".data) then s.drop 9
           else if s.take 3 = ("```".data) then s.drop 3
           else s
  let s := if s.reverse.take 3 = ("```".data.reverse) then (s.reverse.drop 3).reverse else s
  stripString (String.mk s)

/-- The parse-and-validate tail of `generate_python_code`
(run_code.py lines 124-133), as a function of the model reply after
`clean_json` and `json.loads` (`none` models a `json.loads` failure; calling
`.get` on a parsed non-dict value raises AttributeError). Returns the
stripped code together with the `input_files` and `input_links` values of the
reply, defaulted to empty lists when absent. -/
def generate_python_code (parsedResponse : Option JValue) :
    Except PyExc (String × JValue × JValue) :=
  match parsedResponse with
  | none => .error .jsonDecodeError
  | some (.obj fields) =>
    match pyStrip (dictGet fields "code" (.str "")) with
    | .error e => .error e
    | .ok code =>
      let input_files := dictGet fields "input_files" (.arr [])
      let input_links := dictGet fields "input_links" (.arr [])
      if !(isinstance_str code) || is_none_or_empty code then .error .valueError
      else .ok (code, input_files, input_links)
  | some _ => .error .attributeError

/-- A stored file entry of the user, as exposed by the file-store interface
(spec 6: a name and raw text content). -/
structure FileObject : Type where
  file_name : String
  raw_text : String

/-- Modelled from the spec: `FileObjectAdapters.async_get_file_objects_by_name`
(khoj/database/adapters, not in scope) looks up all stored file entries owned
by the user whose name matches the requested filename, in store order
(spec 4.2 and 6: lookup by `(user, filename)` returns zero or more entries).
The list `store` is the file store of the requesting user. -/
def get_file_objects_by_name (store : List FileObject) (file_name : String) :
    List FileObject :=
  store.filter (fun f => f.file_name == file_name)

/-- One entry of the `input_data` list built at run_code.py lines 66-71. -/
structure InputArtifact : Type where
  filename : String
  b64_data : String
deriving DecidableEq

/-- `os.path.basename`: the part of the path after the final slash. -/
def basename (p : String) : String :=
  String.mk ((p.data.reverse.takeWhile (fun c => c != '/')).reverse)

/-- The UTF-8 encoding of a Unicode code point, as a list of byte values
(Python `str.encode("utf-8")` acts codepoint-wise). -/
def utf8Bytes (n : Nat) : List Nat :=
  if n < 0x80 then [n]
  else if n < 0x800 then [0xC0 + n / 64, 0x80 + n % 64]
  else if n < 0x10000 then [0xE0 + n / 4096, 0x80 + n / 64 % 64, 0x80 + n % 64]
  else [0xF0 + n / 262144, 0x80 + n / 4096 % 64, 0x80 + n / 64 % 64, 0x80 + n % 64]

/-- The base64 digit alphabet. -/
def b64Digit (n : Nat) : Char :=
  "ABCDEFGHIJKLMNOPQRSTUVWXYZabcdefghijklmnopqrstuvwxyz0123456789+/".data.getD n 'A'

/-- Standard base64 of a byte list, three bytes per four output digits, with
`=` padding. -/
def b64Chunks : List Nat → String
  | [] => ""
  | [a] => String.mk [b64Digit (a / 4), b64Digit (a % 4 * 16)] ++ "=="
  | [a, b] => String.mk [b64Digit (a / 4), b64Digit (a % 4 * 16 + b / 16), b64Digit (b % 16 * 4)] ++ "="
  | a :: b :: c :: rest =>
    String.mk [b64Digit (a / 4), b64Digit (a % 4 * 16 + b / 16),
               b64Digit (b % 16 * 4 + c / 64), b64Digit (c % 64)] ++ b64Chunks rest

/-- `base64.b64encode(text.encode("utf-8")).decode("utf-8")`
(run_code.py line 69). -/
def b64encode (text : String) : String :=
  b64Chunks (text.data.flatMap (fun c => utf8Bytes c.toNat))

/-- A matched file entry turned into an input artifact
(run_code.py lines 66-71). -/
def toInputArtifact (f : FileObject) : InputArtifact :=
  { filename := basename f.file_name, b64_data := b64encode f.raw_text }

/-- The input-preparation loop of `run_code` (lines 60-71): gather every
stored entry matching each requested filename, in request order, then encode
each as an artifact. Read-only over the store by construction. -/
def prepare_input_data (store : List FileObject) (input_files : List String) :
    List InputArtifact :=
  let user_input_files := input_files.flatMap (fun n => get_file_objects_by_name store n)
  user_input_files.map toInputArtifact

/-- The observable part of the sandbox HTTP response: the numeric status and
the JSON object body (`await response.json()`). -/
structure HttpResponse : Type where
  status : Nat
  body : List (String × JValue)

/-- The JSON payload posted to the sandbox endpoint
(run_code.py line 143): the cleaned code paired with the artifact list. -/
def sandbox_request (code : String) (input_data : List InputArtifact) :
    List (String × JValue) :=
  [("code", JValue.str (clean_code_python code)),
   ("files", JValue.arr (input_data.map (fun a =>
     JValue.obj [("filename", JValue.str a.filename), ("b64_data", JValue.str a.b64_data)])))]

/-- `execute_sandboxed_python` (run_code.py lines 136-156) as a function of
the code, the input artifacts and the sandbox response. On status 200 the
parsed body becomes the result with its `code` entry overwritten by the
cleaned code that was sent; on any other status a failure result is
synthesized without reading the body. -/
def execute_sandboxed_python (code : String) (input_data : List InputArtifact)
    (response : HttpResponse) : List (String × JValue) :=
  let cleaned_code := clean_code_python code
  let _request := sandbox_request code input_data
  if response.status == 200 then
    dictSet response.body "code" (JValue.str cleaned_code)
  else
    [("code", JValue.str cleaned_code),
     ("success", JValue.bool false),
     ("std_err", JValue.str ("Failed to execute code with " ++ toString response.status))]

/-- The terminal outcome of one `run_code` invocation: the mapping yielded at
line 82, the ValueError message raised at line 58 or 84, or an exception
raised outside both try blocks, which propagates unwrapped. -/
inductive PipelineOutcome : Type where
  | Completed (output : List (String × JValue))
  | Failed (message : String)
  | Crashed (e : PyExc)

/-- The iteration `for input_file in input_files` at run_code.py line 63,
applied to whatever value synthesis returned for `input_files`. A Python
list iterates its elements, a string its characters (each a one-character
string), a dict its keys; a number, a boolean or None is not iterable, and
the TypeError is raised. -/
def pyIterate : JValue → Except PyExc (List JValue)
  | .arr elems => .ok elems
  | .str s => .ok (s.data.map (fun c => JValue.str (String.mk [c])))
  | .obj fields => .ok (fields.map (fun p => JValue.str p.1))
  | _ => .error .typeError

/-- The iterated elements as the names passed one by one to the
lookup-by-name adapter at line 64. The external interface (spec 6) specifies
strings; an element of any other shape names no stored file and so
contributes nothing to the lookup. -/
def lookupNames (elems : List JValue) : List String :=
  elems.filterMap (fun v => match v with | .str s => some s | _ => none)

/-- The orchestration of `run_code` (lines 29-84) as a function of the query,
the parsed model reply, the file store of the user, and the sandbox call
outcome (`Except.error msg` models a transport-level exception with message
`msg`). Progress notifications carry no data and are omitted. Any exception
from synthesis is wrapped at line 58; the input-preparation loop at lines
60-71 sits outside both try blocks, so a TypeError from iterating a
non-iterable `input_files` propagates unwrapped; any exception from the
sandbox call is wrapped at line 84; otherwise the `code` entry is popped out
of the result and the final mapping is yielded. -/
def run_code (query : String) (parsedResponse : Option JValue)
    (store : List FileObject) (sandboxOutcome : Except String HttpResponse) :
    PipelineOutcome :=
  match generate_python_code parsedResponse with
  | .error e =>
    .Failed ("Failed to generate code for " ++ query ++ " with error: " ++ e.msg)
  | .ok (code, input_files, _input_links) =>
    match pyIterate input_files with
    | .error e => .Crashed e
    | .ok elems =>
      let input_data := prepare_input_data store (lookupNames elems)
      match sandboxOutcome with
      | .error err =>
        .Failed ("Failed to run code for " ++ query ++ " with error: " ++ err)
      | .ok response =>
        let result := execute_sandboxed_python code input_data response
        match dictPop result "code" with
        | none =>
          .Failed ("Failed to run code for " ++ query ++ " with error: " ++ "KeyError")
        | some (poppedCode, results) =>
          .Completed [(query, JValue.obj [("code", poppedCode), ("results", JValue.obj results)])]

/-! ## Helper lemmas -/

theorem stripString_empty : stripString "" = "" := rfl

theorem lookup_dictSet (fields : List (String × JValue)) (k : String) (v : JValue) :
    (dictSet fields k v).lookup k = some v := by
  induction fields with
  | nil => simp [dictSet, List.lookup]
  | cons p rest ih =>
    obtain ⟨k', v'⟩ := p
    by_cases h : k' = k
    · subst h
      simp [dictSet, List.lookup]
    · have hb : (k' == k) = false := by simp [h]
      have hb' : (k == k') = false := by simp [Ne.symm h]
      simp [dictSet, hb, List.lookup, hb', ih]

theorem lookup_execute (code : String) (input_data : List InputArtifact)
    (resp : HttpResponse) :
    (execute_sandboxed_python code input_data resp).lookup "code"
      = some (JValue.str (clean_code_python code)) := by
  by_cases h : resp.status = 200
  · simp [execute_sandboxed_python, h, lookup_dictSet]
  · have hb : (resp.status == 200) = false := by simp [h]
    simp [execute_sandboxed_python, hb, List.lookup]

theorem prepare_input_data_append (store : List FileObject) (xs ys : List String) :
    prepare_input_data store (xs ++ ys)
      = prepare_input_data store xs ++ prepare_input_data store ys := by
  simp [prepare_input_data, List.flatMap_append]

theorem prepare_input_data_cons (store : List FileObject) (n : String) (ys : List String) :
    prepare_input_data store (n :: ys)
      = (get_file_objects_by_name store n).map toInputArtifact
        ++ prepare_input_data store ys := by
  simp [prepare_input_data, List.flatMap_cons]

/-! ## Claim theorems -/

/-- C1: For every HTTP 200 response from the sandbox endpoint,
`execute_sandboxed_python` returns a result whose `code` entry equals the
cleaned code that was sent in the request, even when the response body itself
carries a different `code` entry: the echo is overwritten in place. -/
theorem C1_success_code_overwritten (code : String) (input_data : List InputArtifact)
    (resp : HttpResponse) (hstatus : resp.status = 200) :
    execute_sandboxed_python code input_data resp
      = dictSet resp.body "code" (JValue.str (clean_code_python code))
    ∧ (execute_sandboxed_python code input_data resp).lookup "code"
      = some (JValue.str (clean_code_python code))
    ∧ (sandbox_request code input_data).lookup "code"
      = some (JValue.str (clean_code_python code)) := by
  refine ⟨?_, lookup_execute code input_data resp, rfl⟩
  simp [execute_sandboxed_python, hstatus]

/-- Witness for C1 at a concrete 200 response whose body echoes a different
`code` value. -/
theorem C1_success_code_overwritten_witness :
    (execute_sandboxed_python "print(1+1)" []
        { status := 200, body := [("code", JValue.str "echo"), ("success", JValue.bool true)] }).lookup "code"
      = some (JValue.str (clean_code_python "print(1+1)")) :=
  (C1_success_code_overwritten "print(1+1)" []
    { status := 200, body := [("code", JValue.str "echo"), ("success", JValue.bool true)] } rfl).2.1

/-- C3: For every non-success HTTP status, `execute_sandboxed_python` returns
(rather than raises) the synthesized result with `success` false, `std_err`
equal to the literal failure message carrying the numeric status, and `code`
still equal to the cleaned code that was sent. -/
theorem C3_non_success_synthesized_failure (code : String)
    (input_data : List InputArtifact) (resp : HttpResponse)
    (hstatus : resp.status ≠ 200) :
    execute_sandboxed_python code input_data resp
      = [("code", JValue.str (clean_code_python code)),
         ("success", JValue.bool false),
         ("std_err", JValue.str ("Failed to execute code with " ++ toString resp.status))] := by
  have hb : (resp.status == 200) = false := by simp [hstatus]
  simp [execute_sandboxed_python, hb]

/-- Witness for C3 at status 500. -/
theorem C3_non_success_synthesized_failure_witness :
    execute_sandboxed_python "print(1+1)" [] { status := 500, body := [] }
      = [("code", JValue.str (clean_code_python "print(1+1)")),
         ("success", JValue.bool false),
         ("std_err", JValue.str ("Failed to execute code with " ++ toString 500))] :=
  C3_non_success_synthesized_failure "print(1+1)" [] { status := 500, body := [] } (by decide)

/-- C9: Only the exact status 200 is treated as success: for every other
status, success-class or not, the synthesized failure result is returned and
the response body is never consulted (the result is the same for any two
bodies). -/
theorem C9_only_exact_200_is_success (code : String) (input_data : List InputArtifact)
    (s : Nat) (body body' : List (String × JValue)) (hs : s ≠ 200) :
    execute_sandboxed_python code input_data { status := s, body := body }
      = [("code", JValue.str (clean_code_python code)),
         ("success", JValue.bool false),
         ("std_err", JValue.str ("Failed to execute code with " ++ toString s))]
    ∧ execute_sandboxed_python code input_data { status := s, body := body }
      = execute_sandboxed_python code input_data { status := s, body := body' } := by
  have hb : (s == 200) = false := by simp [hs]
  constructor <;> simp [execute_sandboxed_python, hb]

/-- Witness for C9 at the success-class status 201, with two different
bodies. -/
theorem C9_only_exact_200_is_success_witness :
    (execute_sandboxed_python "x=1" []
        { status := 201, body := [("success", JValue.bool true)] }
      = [("code", JValue.str (clean_code_python "x=1")),
         ("success", JValue.bool false),
         ("std_err", JValue.str ("Failed to execute code with " ++ toString 201))])
    ∧ execute_sandboxed_python "x=1" []
        { status := 201, body := [("success", JValue.bool true)] }
      = execute_sandboxed_python "x=1" [] { status := 201, body := [] } :=
  C9_only_exact_200_is_success "x=1" [] 201 [("success", JValue.bool true)] [] (by decide)

/-- C4: For every reply that parses as a JSON object whose `code` value is a
string that is non-empty after stripping, synthesis returns the stripped code
together with the `input_files` and `input_links` values of the reply, each
defaulting to the empty list when the key is absent. -/
theorem C4_valid_reply_synthesis (fields : List (String × JValue)) (s : String)
    (hcode : fields.lookup "code" = some (JValue.str s))
    (hne : stripString s ≠ "") :
    generate_python_code (some (JValue.obj fields))
      = .ok (stripString s,
             dictGet fields "input_files" (JValue.arr []),
             dictGet fields "input_links" (JValue.arr []))
    ∧ (fields.lookup "input_files" = none →
        dictGet fields "input_files" (JValue.arr []) = JValue.arr [])
    ∧ (fields.lookup "input_links" = none →
        dictGet fields "input_links" (JValue.arr []) = JValue.arr []) := by
  refine ⟨?_, fun h => by simp [dictGet, h], fun h => by simp [dictGet, h]⟩
  have hb : (stripString s == "") = false := by simp [hne]
  simp [generate_python_code, dictGet, hcode, pyStrip, isinstance_str, is_none_or_empty, hb]

/-- Witness for C4 at a reply holding only a padded `code` string. -/
theorem C4_valid_reply_synthesis_witness :
    generate_python_code (some (JValue.obj [("code", JValue.str " print(1+1) ")]))
      = .ok (stripString " print(1+1) ",
             dictGet [("code", JValue.str " print(1+1) ")] "input_files" (JValue.arr []),
             dictGet [("code", JValue.str " print(1+1) ")] "input_links" (JValue.arr [])) :=
  (C4_valid_reply_synthesis [("code", JValue.str " print(1+1) ")] " print(1+1) "
    rfl (by decide)).1

/-- C5: Synthesis fails in each degenerate case: the reply is not valid JSON;
the `code` key is absent; its value is not a string; or it is empty or
whitespace-only after stripping. In every case the raised exception is
wrapped at the pipeline boundary into the generation-failure message carrying
the query. -/
theorem C5_synthesis_failure_cases :
    (generate_python_code none = .error PyExc.jsonDecodeError)
    ∧ (∀ fields : List (String × JValue), fields.lookup "code" = none →
        generate_python_code (some (JValue.obj fields)) = .error PyExc.valueError)
    ∧ (∀ (fields : List (String × JValue)) (v : JValue),
        fields.lookup "code" = some v → (∀ s : String, v ≠ JValue.str s) →
        generate_python_code (some (JValue.obj fields)) = .error PyExc.attributeError)
    ∧ (∀ (fields : List (String × JValue)) (s : String),
        fields.lookup "code" = some (JValue.str s) → stripString s = "" →
        generate_python_code (some (JValue.obj fields)) = .error PyExc.valueError)
    ∧ (∀ (q : String) (parsedResponse : Option JValue) (e : PyExc)
        (store : List FileObject) (sandboxOutcome : Except String HttpResponse),
        generate_python_code parsedResponse = .error e →
        run_code q parsedResponse store sandboxOutcome
          = .Failed ("Failed to generate code for " ++ q ++ " with error: " ++ e.msg)) := by
  refine ⟨rfl, ?_, ?_, ?_, ?_⟩
  · intro fields h
    simp [generate_python_code, dictGet, h, pyStrip, stripString_empty, is_none_or_empty,
      isinstance_str]
  · intro fields v h hv
    have hp : pyStrip v = .error PyExc.attributeError := by
      cases v with
      | str s => exact absurd rfl (hv s)
      | num n => rfl
      | bool b => rfl
      | null => rfl
      | arr elems => rfl
      | obj fs => rfl
    simp [generate_python_code, dictGet, h, hp]
  · intro fields s h hs
    simp [generate_python_code, dictGet, h, pyStrip, hs, is_none_or_empty, isinstance_str]
  · intro q parsedResponse e store sandboxOutcome h
    simp [run_code, h]

/-- Witness for C5: one concrete reply per failure case, and the wrapped
pipeline failure for the invalid-JSON case. -/
theorem C5_synthesis_failure_cases_witness :
    (generate_python_code none = .error PyExc.jsonDecodeError)
    ∧ (generate_python_code (some (JValue.obj [("foo", JValue.null)]))
        = .error PyExc.valueError)
    ∧ (generate_python_code (some (JValue.obj [("code", JValue.num 3)]))
        = .error PyExc.attributeError)
    ∧ (generate_python_code (some (JValue.obj [("code", JValue.str "  ")]))
        = .error PyExc.valueError)
    ∧ (run_code "q" none [] (.error "down")
        = .Failed ("Failed to generate code for " ++ "q" ++ " with error: "
            ++ PyExc.msg PyExc.jsonDecodeError)) :=
  ⟨C5_synthesis_failure_cases.1,
   C5_synthesis_failure_cases.2.1 [("foo", JValue.null)] rfl,
   C5_synthesis_failure_cases.2.2.1 [("code", JValue.num 3)] (JValue.num 3) rfl
     (fun _ h => JValue.noConfusion h),
   C5_synthesis_failure_cases.2.2.2.1 [("code", JValue.str "  ")] "  " rfl rfl,
   C5_synthesis_failure_cases.2.2.2.2 "q" none PyExc.jsonDecodeError [] (.error "down") rfl⟩

/-- C10: When the `code` value of the parsed reply is present but not a
string, synthesis raises AttributeError from the `.strip()` call, not
ValueError from the explicit isinstance validation; that validation is
unreachable for non-string values because by the time it runs the stripped
value is always a Python str (`isinstance_str` is constantly true). The
exception still surfaces as a wrapped generation failure at the pipeline
boundary. -/
theorem C10_nonstring_code_raises_before_validation
    (fields : List (String × JValue)) (v : JValue)
    (hget : fields.lookup "code" = some v)
    (hnotstr : ∀ s : String, v ≠ JValue.str s) :
    generate_python_code (some (JValue.obj fields)) = .error PyExc.attributeError
    ∧ (∀ code : String, isinstance_str code = true)
    ∧ (∀ (q : String) (store : List FileObject) (sandboxOutcome : Except String HttpResponse),
        run_code q (some (JValue.obj fields)) store sandboxOutcome
          = .Failed ("Failed to generate code for " ++ q ++ " with error: "
              ++ PyExc.msg PyExc.attributeError)) := by
  have hp : pyStrip v = .error PyExc.attributeError := by
    cases v with
    | str s => exact absurd rfl (hnotstr s)
    | num n => rfl
    | bool b => rfl
    | null => rfl
    | arr elems => rfl
    | obj fs => rfl
  have hgen : generate_python_code (some (JValue.obj fields)) = .error PyExc.attributeError := by
    simp [generate_python_code, dictGet, hget, hp]
  exact ⟨hgen, fun _ => rfl, fun q store sandboxOutcome => by simp [run_code, hgen]⟩

/-- Witness for C10 at a reply whose `code` value is a boolean. -/
theorem C10_nonstring_code_raises_before_validation_witness :
    generate_python_code (some (JValue.obj [("code", JValue.bool true)]))
      = .error PyExc.attributeError
    ∧ isinstance_str "" = true
    ∧ run_code "q10" (some (JValue.obj [("code", JValue.bool true)])) []
        (.ok { status := 200, body := [] })
      = .Failed ("Failed to generate code for " ++ "q10" ++ " with error: "
          ++ PyExc.msg PyExc.attributeError) :=
  ⟨(C10_nonstring_code_raises_before_validation [("code", JValue.bool true)]
      (JValue.bool true) rfl (fun _ h => JValue.noConfusion h)).1,
   (C10_nonstring_code_raises_before_validation [("code", JValue.bool true)]
      (JValue.bool true) rfl (fun _ h => JValue.noConfusion h)).2.1 "",
   (C10_nonstring_code_raises_before_validation [("code", JValue.bool true)]
      (JValue.bool true) rfl (fun _ h => JValue.noConfusion h)).2.2 "q10" []
      (.ok { status := 200, body := [] })⟩

/-- C6: Input resolution yields exactly one artifact per stored entry
matching each requested filename, grouped in request order; every artifact
carries the basename of the stored name and the base64 encoding of the UTF-8
text; matched entries come from the store, which resolution reads but never
changes; and a filename with no match contributes zero artifacts and raises
no error (dropping it from the request list leaves the result unchanged). -/
theorem C6_input_resolution (store : List FileObject) (input_files : List String) :
    prepare_input_data store input_files
      = input_files.flatMap
          (fun n => (get_file_objects_by_name store n).map toInputArtifact)
    ∧ (∀ f : FileObject, toInputArtifact f
        = { filename := basename f.file_name, b64_data := b64encode f.raw_text })
    ∧ (∀ (n : String) (f : FileObject), f ∈ get_file_objects_by_name store n → f ∈ store)
    ∧ (∀ (n : String) (xs ys : List String), get_file_objects_by_name store n = [] →
        prepare_input_data store (xs ++ n :: ys) = prepare_input_data store (xs ++ ys)) := by
  refine ⟨?_, fun f => rfl, ?_, ?_⟩
  · simp [prepare_input_data, List.map_flatMap]
  · intro n f hf
    exact List.mem_of_mem_filter hf
  · intro n xs ys h
    rw [prepare_input_data_append, prepare_input_data_append, prepare_input_data_cons, h]
    simp

/-- Witness for C6: a one-file store; the unmatched name contributes nothing,
and the matched name yields the base64 artifact under the basename. -/
theorem C6_input_resolution_witness :
    prepare_input_data [{ file_name := "docs/a.txt", raw_text := "hi" }]
        ["missing.txt", "docs/a.txt"]
      = prepare_input_data [{ file_name := "docs/a.txt", raw_text := "hi" }] ["docs/a.txt"]
    ∧ prepare_input_data [{ file_name := "docs/a.txt", raw_text := "hi" }] ["docs/a.txt"]
      = [{ filename := "a.txt", b64_data := "aGk=" }] :=
  ⟨(C6_input_resolution [{ file_name := "docs/a.txt", raw_text := "hi" }]
      ["missing.txt", "docs/a.txt"]).2.2.2 "missing.txt" [] ["docs/a.txt"] rfl,
   rfl⟩

/-- C7: When synthesis raises, the pipeline fails with the wrapped message
carrying the original query and the underlying cause, and the outcome does
not depend on the file store or on the sandbox call outcome: resolution and
execution are never attempted. -/
theorem C7_generation_failure_skips_execution (query : String)
    (parsedResponse : Option JValue) (e : PyExc)
    (hgen : generate_python_code parsedResponse = .error e) :
    ∀ (store store' : List FileObject)
      (sandboxOutcome sandboxOutcome' : Except String HttpResponse),
      run_code query parsedResponse store sandboxOutcome
        = .Failed ("Failed to generate code for " ++ query ++ " with error: " ++ e.msg)
      ∧ run_code query parsedResponse store sandboxOutcome
        = run_code query parsedResponse store' sandboxOutcome' := by
  intro store store' sandboxOutcome sandboxOutcome'
  constructor <;> simp [run_code, hgen]

/-- Witness for C7: a reply lacking `code` fails the pipeline identically for
two different stores and sandbox outcomes. -/
theorem C7_generation_failure_skips_execution_witness :
    run_code "add numbers" (some (JValue.obj [("foo", JValue.null)])) []
        (.ok { status := 200, body := [] })
      = .Failed ("Failed to generate code for " ++ "add numbers" ++ " with error: "
          ++ PyExc.msg PyExc.valueError)
    ∧ run_code "add numbers" (some (JValue.obj [("foo", JValue.null)])) []
        (.ok { status := 200, body := [] })
      = run_code "add numbers" (some (JValue.obj [("foo", JValue.null)]))
          [{ file_name := "a", raw_text := "b" }] (.error "down") :=
  C7_generation_failure_skips_execution "add numbers"
    (some (JValue.obj [("foo", JValue.null)])) PyExc.valueError rfl
    [] [{ file_name := "a", raw_text := "b" }]
    (.ok { status := 200, body := [] }) (.error "down")

/-- C8: After successful synthesis and an iterable `input_files` (the
precondition for the sandbox client to be reached at all: a non-iterable
value raises an uncaught TypeError at line 63, before any sandbox call),
every sandbox response, success flag true or false and synthesized
non-success results included, makes the pipeline complete with the final
mapping keyed by the query; a transport-level exception instead fails the
pipeline with the wrapped message carrying the query. -/
theorem C8_sandbox_result_always_completes (query : String)
    (parsedResponse : Option JValue) (store : List FileObject)
    (code : String) (input_files input_links : JValue) (elems : List JValue)
    (hgen : generate_python_code parsedResponse = .ok (code, input_files, input_links))
    (hiter : pyIterate input_files = .ok elems) :
    (∀ resp : HttpResponse, ∃ (c : JValue) (results : List (String × JValue)),
        run_code query parsedResponse store (.ok resp)
          = .Completed [(query, JValue.obj [("code", c), ("results", JValue.obj results)])])
    ∧ (∀ err : String,
        run_code query parsedResponse store (.error err)
          = .Failed ("Failed to run code for " ++ query ++ " with error: " ++ err)) := by
  constructor
  · intro resp
    have hpop := lookup_execute code (prepare_input_data store (lookupNames elems)) resp
    refine ⟨JValue.str (clean_code_python code),
      (execute_sandboxed_python code (prepare_input_data store (lookupNames elems))
        resp).filter (fun p => p.1 != "code"), ?_⟩
    simp [run_code, hgen, hiter, dictPop, hpop]
  · intro err
    simp [run_code, hgen, hiter]

/-- Witness for C8: a sandbox 500 still completes; a transport error fails
with the wrapped message. -/
theorem C8_sandbox_result_always_completes_witness :
    (∃ (c : JValue) (results : List (String × JValue)),
        run_code "q8" (some (JValue.obj [("code", JValue.str "print(1+1)")])) []
            (.ok { status := 500, body := [] })
          = .Completed [("q8", JValue.obj [("code", c), ("results", JValue.obj results)])])
    ∧ run_code "q8" (some (JValue.obj [("code", JValue.str "print(1+1)")])) []
        (.error "connection refused")
      = .Failed ("Failed to run code for " ++ "q8" ++ " with error: "
          ++ "connection refused") :=
  ⟨(C8_sandbox_result_always_completes "q8"
      (some (JValue.obj [("code", JValue.str "print(1+1)")])) [] "print(1+1)"
      (JValue.arr []) (JValue.arr []) [] rfl rfl).1 { status := 500, body := [] },
   (C8_sandbox_result_always_completes "q8"
      (some (JValue.obj [("code", JValue.str "print(1+1)")])) [] "print(1+1)"
      (JValue.arr []) (JValue.arr []) [] rfl rfl).2 "connection refused"⟩

/-- C2 as stated is false: line 80 of run_code.py pops the `code` entry out
of the execution result before yielding, so the inner `results` mapping of
the Completed output does not contain the `code` key. At the exact inputs of
the claim the pipeline output differs from the claimed value. -/
theorem C2_end_to_end_counterexample :
    run_code "add two numbers"
      (some (JValue.obj [("code", JValue.str "print(1+1)"),
                         ("input_files", JValue.arr []), ("input_links", JValue.arr [])]))
      []
      (.ok { status := 200, body := [("success", JValue.bool true), ("std_out", JValue.str "2\n")] })
      ≠ PipelineOutcome.Completed [("add two numbers",
          JValue.obj [("code", JValue.str "print(1+1)"),
                      ("results", JValue.obj [("success", JValue.bool true),
                                              ("std_out", JValue.str "2\n"),
                                              ("code", JValue.str "print(1+1)")])])] := by
  intro h
  have hrun : run_code "add two numbers"
      (some (JValue.obj [("code", JValue.str "print(1+1)"),
                         ("input_files", JValue.arr []), ("input_links", JValue.arr [])]))
      []
      (.ok { status := 200, body := [("success", JValue.bool true), ("std_out", JValue.str "2\n")] })
      = PipelineOutcome.Completed [("add two numbers",
          JValue.obj [("code", JValue.str "print(1+1)"),
                      ("results", JValue.obj [("success", JValue.bool true),
                                              ("std_out", JValue.str "2\n")])])] := rfl
  rw [hrun] at h
  injection h with h1
  simp at h1

/-- C2 (amended): at the claimed inputs the pipeline completes with the
mapping keyed by the query to the code and the results, where the `code`
entry has been popped out of the results and appears only at the outer
level. -/
theorem C2_end_to_end_amended :
    run_code "add two numbers"
      (some (JValue.obj [("code", JValue.str "print(1+1)"),
                         ("input_files", JValue.arr []), ("input_links", JValue.arr [])]))
      []
      (.ok { status := 200, body := [("success", JValue.bool true), ("std_out", JValue.str "2\n")] })
      = PipelineOutcome.Completed [("add two numbers",
          JValue.obj [("code", JValue.str "print(1+1)"),
                      ("results", JValue.obj [("success", JValue.bool true),
                                              ("std_out", JValue.str "2\n")])])] := rfl

end RunCode
